import Mathlib

/-!
Shallow embedding of `src/volume_controller.cc` (node-audio-windows).

The C++ file is a thin adapter: a `VolumeControl` class wrapping the
Windows Core Audio default render endpoint (get/set scalar volume,
get/set mute), a `VolumeControlWrapper` NAN binding exposing five
prototype methods, and an `ExecTranslatorMacro` method that finds a
window by exact title and delivers a `WM_COPYDATA` payload via
`SendMessageTimeoutA`.

The OS is modelled as a stub: an `Endpoint` state carries the scalar
volume and mute flag together with the HRESULT each audio call would
return, an `AudioOs` carries the HRESULTs of the three construction
steps, and a `WinOs` carries the set of top-level window titles plus
the `SendMessageTimeoutA` return value and the value `GetLastError`
reports after the send.  Every operation returns, besides its result,
the list of OS calls it performed, so that "no OS call is made" is a
provable statement.  Volumes are rationals (the code passes the scalar
through unchanged, so the numeric representation is irrelevant to the
claims).  Thrown `std::string` errors are tagged by their throw site in
`VcError`; `VcError.render` reproduces the exact thrown string,
including the `string_format("%s (0x%X)", msg, hr)` hexadecimal
rendering of HRESULTs.
-/

/-- Uppercase hexadecimal digit, as produced by printf `%X`. -/
def hexDigitChar (n : Nat) : Char :=
  if n < 10 then Char.ofNat (48 + n) else Char.ofNat (55 + n)

/-- Digits of `n` in base 16, most significant first (printf `%X` on a
nonzero value; the empty list for 0 is handled in `natToHex`). -/
def toHexCore (n : Nat) : List Char :=
  if h : n < 16 then [hexDigitChar n]
  else
    have : n / 16 < n := Nat.div_lt_self (by omega) (by omega)
    toHexCore (n / 16) ++ [hexDigitChar (n % 16)]

/-- printf `%X` of an unsigned value: uppercase hex, no padding. -/
def natToHex (n : Nat) : String := String.mk (toHexCore n)

/-- The bit pattern of an `Int` truncated to an unsigned 32-bit value,
as printf `%X` sees an `HRESULT` argument. -/
def toUInt32Bits (hr : Int) : Nat := (hr % (2 ^ 32)).toNat

/-- `string_format("%s (0x%X)", msg, hr)` from the source. -/
def formatHr (msg : String) (hr : Int) : String :=
  msg ++ " (0x" ++ natToHex (toUInt32Bits hr) ++ ")"

/-- The Windows `FAILED` macro: an HRESULT is a failure iff negative. -/
def FAILED (hr : Int) : Bool := hr < 0

/-- Reinterpret a 32-bit unsigned value as a signed 32-bit HRESULT. -/
def toInt32 (x : Nat) : Int :=
  let b : Nat := x % 2 ^ 32
  if b < 2 ^ 31 then (b : Int) else (b : Int) - 2 ^ 32

/-- The Windows `HRESULT_FROM_WIN32` macro:
`(HRESULT)(x) <= 0 ? (HRESULT)(x) : ((x & 0xFFFF) | (FACILITY_WIN32 << 16) | 0x80000000)`. -/
def HRESULT_FROM_WIN32 (x : Nat) : Int :=
  if toInt32 x ≤ 0 then toInt32 x
  else toInt32 ((x &&& 0xFFFF) ||| (7 <<< 16) ||| 0x80000000)

/-- Errors thrown (as `std::string`) by the source, tagged by throw
site; `VcError.render` recovers the exact string thrown. -/
inductive VcError
  | invalidArgument (msg : String)
  | osError (msg : String) (hr : Int)
  | arityError (msg : String)
  | targetNotRunning (msg : String)
  | deliveryFailed (msg : String) (hr : Int)
deriving DecidableEq, Repr

/-- The exact `std::string` thrown for each error. -/
def VcError.render : VcError → String
  | .invalidArgument m => m
  | .osError m hr => formatHr m hr
  | .arityError m => m
  | .targetNotRunning m => m
  | .deliveryFailed m hr => formatHr m hr

/-- `checkErrors(hr, msg)`: throw the formatted message iff `FAILED(hr)`. -/
def checkErrors (hr : Int) (msg : String) : Except VcError Unit :=
  if FAILED hr then .error (.osError msg hr) else .ok ()

/-- Audio endpoint stub: the state the default render endpoint holds
(scalar volume, mute flag) plus the HRESULT each `IAudioEndpointVolume`
call would return (failure injection for the stub). -/
structure Endpoint where
  volume : ℚ
  muted : Bool
  hrGetMute : Int := 0
  hrSetMute : Int := 0
  hrGetVolume : Int := 0
  hrSetVolume : Int := 0
deriving DecidableEq, Repr

/-- An OS audio call performed by a `VolumeControl` operation. -/
inductive OsCall
  | getMute
  | setMute (m : Bool)
  | getMasterVolume
  | setMasterVolume (v : ℚ)
deriving DecidableEq, Repr

/-- `VolumeControl::isMuted`: `GetMute` then `checkErrors`. -/
def VolumeControl.isMuted (d : Endpoint) :
    Except VcError Bool × Endpoint × List OsCall :=
  match checkErrors d.hrGetMute "getting muted state" with
  | .error e => (.error e, d, [.getMute])
  | .ok _ => (.ok d.muted, d, [.getMute])

/-- `VolumeControl::setMuted`: `SetMute(muted, NULL)` then `checkErrors`. -/
def VolumeControl.setMuted (d : Endpoint) (muted : Bool) :
    Except VcError Unit × Endpoint × List OsCall :=
  match checkErrors d.hrSetMute "setting mute" with
  | .error e => (.error e, d, [.setMute muted])
  | .ok _ => (.ok (), { d with muted := muted }, [.setMute muted])

/-- `VolumeControl::getVolume`: `GetMasterVolumeLevelScalar` then `checkErrors`. -/
def VolumeControl.getVolume (d : Endpoint) :
    Except VcError ℚ × Endpoint × List OsCall :=
  match checkErrors d.hrGetVolume "getting volume" with
  | .error e => (.error e, d, [.getMasterVolume])
  | .ok _ => (.ok d.volume, d, [.getMasterVolume])

/-- `VolumeControl::setVolume`: local range check (throwing a plain
string before any OS call), then `SetMasterVolumeLevelScalar`. -/
def VolumeControl.setVolume (d : Endpoint) (volume : ℚ) :
    Except VcError Unit × Endpoint × List OsCall :=
  if volume < 0 ∨ volume > 1 then
    (.error (.invalidArgument "Volume needs to be between 0.0 and 1.0 inclusive"),
     d, [])
  else
    match checkErrors d.hrSetVolume "setting volume" with
    | .error e => (.error e, d, [.setMasterVolume volume])
    | .ok _ => (.ok (), { d with volume := volume }, [.setMasterVolume volume])

/-- Audio OS stub for construction: the HRESULT of each of the three
construction-time calls, and the endpoint obtained when all succeed. -/
structure AudioOs where
  hrCoCreate : Int := 0
  hrGetDefaultEndpoint : Int := 0
  hrActivate : Int := 0
  endpoint : Endpoint
deriving DecidableEq, Repr

/-- An OS call performed by the `VolumeControl` constructor. -/
inductive CtorCall
  | coCreateInstance
  | getDefaultAudioEndpoint
  | activate
deriving DecidableEq, Repr

/-- `VolumeControl::VolumeControl`: `CoCreateInstance`, then
`GetDefaultAudioEndpoint(eRender, eConsole, ...)`, then
`Activate(IAudioEndpointVolume, ...)`; each guarded by `checkErrors`,
so a failing step throws before the next step runs. -/
def VolumeControl.construct (os : AudioOs) :
    Except VcError Endpoint × List CtorCall :=
  match checkErrors os.hrCoCreate
      "Error when trying to get a handle to MMDeviceEnumerator device enumerator" with
  | .error e => (.error e, [.coCreateInstance])
  | .ok _ =>
    match checkErrors os.hrGetDefaultEndpoint
        "Error when trying to get a handle to the default audio enpoint" with
    | .error e => (.error e, [.coCreateInstance, .getDefaultAudioEndpoint])
    | .ok _ =>
      match checkErrors os.hrActivate
          "Error when trying to get a handle to the volume endpoint" with
      | .error e =>
          (.error e, [.coCreateInstance, .getDefaultAudioEndpoint, .activate])
      | .ok _ =>
          (.ok os.endpoint,
           [.coCreateInstance, .getDefaultAudioEndpoint, .activate])

/-- The three construction-time `checkErrors` messages: an error with
one of these is the spec's `ConstructionFailure`. -/
def isConstructionFailure : VcError → Bool
  | .osError m _ =>
      (m == "Error when trying to get a handle to MMDeviceEnumerator device enumerator")
      || (m == "Error when trying to get a handle to the default audio enpoint")
      || (m == "Error when trying to get a handle to the volume endpoint")
  | _ => false

/-- Windowing OS stub: which top-level window titles exist at call
time, the `LRESULT` of `SendMessageTimeoutA`, and what `GetLastError`
reports after the send (the code sets it to `ERROR_SUCCESS = 0` just
before sending). -/
structure WinOs where
  windows : List String
  sendRet : Int := 1
  lastError : Nat := 0
deriving DecidableEq, Repr

/-- A windowing OS call performed by `ExecTranslatorMacro`. -/
inductive WinCall
  | findWindow (title : String)
  | sendMessageTimeout (msg : Nat) (dwData : Nat) (payload : String)
      (cbData : Nat) (flags : Nat) (timeout : Nat)
deriving DecidableEq, Repr

/-- `WM_COPYDATA`. -/
def WM_COPYDATA : Nat := 0x004A

/-- `SMTO_ABORTIFHUNG`. -/
def SMTO_ABORTIFHUNG : Nat := 0x0002

/-- `FindWindowA(NULL, name)`: a window with exactly this title exists. -/
def findWindowA (os : WinOs) (name : String) : Bool := os.windows.contains name

/-- `VolumeControlWrapper::ExecTranslatorMacro`: arity check, exact
title lookup of the hardcoded window name, payload `"Macro: " + name`,
one blocking `SendMessageTimeoutA(hwnd, WM_COPYDATA, 0, &cds,
SMTO_ABORTIFHUNG, 5000, ...)`, then throw iff `ret == 0 &&
FAILED(HRESULT_FROM_WIN32(GetLastError()))`. -/
def VolumeControlWrapper.ExecTranslatorMacro (os : WinOs) (args : List String) :
    Except VcError Unit × List WinCall :=
  if args.length ≠ 1 then
    (.error (.arityError "Exactly one string parameter is required."), [])
  else
    let widowName := "Translator CopyData Target"
    if ¬ findWindowA os widowName then
      (.error (.targetNotRunning
          "Could not find running Translator instance to send message to"),
       [.findWindow widowName])
    else
      let macroName := args.headD ""
      let wstrMacroName := "Macro: " ++ macroName
      let cds : Nat × Nat × String := (24, wstrMacroName.utf8ByteSize, wstrMacroName)
      let ret := os.sendRet
      let hr := HRESULT_FROM_WIN32 os.lastError
      let calls :=
        [.findWindow widowName,
         .sendMessageTimeout WM_COPYDATA cds.1 wstrMacroName cds.2.1
           SMTO_ABORTIFHUNG 5000]
      if ret = 0 ∧ FAILED hr then
        (.error (.deliveryFailed "Failed to execute Translator Macro" hr), calls)
      else
        (.ok (), calls)

/-- `VolumeControlWrapper::GetVolume`: unwrap and delegate. -/
def VolumeControlWrapper.GetVolume (d : Endpoint) :
    Except VcError ℚ × Endpoint × List OsCall :=
  VolumeControl.getVolume d

/-- `VolumeControlWrapper::SetVolume`: arity check, coerce `info[0]`
to a number, delegate to `setVolume`. -/
def VolumeControlWrapper.SetVolume (d : Endpoint) (args : List ℚ) :
    Except VcError Unit × Endpoint × List OsCall :=
  if args.length ≠ 1 then
    (.error (.arityError "Exactly one number parameter is required."), d, [])
  else
    VolumeControl.setVolume d (args.headD 0)

/-- `VolumeControlWrapper::IsMuted`: unwrap and delegate. -/
def VolumeControlWrapper.IsMuted (d : Endpoint) :
    Except VcError Bool × Endpoint × List OsCall :=
  VolumeControl.isMuted d

/-- `VolumeControlWrapper::SetMuted`: arity check, coerce `info[0]`
to a boolean, delegate to `setMuted`. -/
def VolumeControlWrapper.SetMuted (d : Endpoint) (args : List Bool) :
    Except VcError Unit × Endpoint × List OsCall :=
  if args.length ≠ 1 then
    (.error (.arityError "Exactly one boolean parameter is required."), d, [])
  else
    VolumeControl.setMuted d (args.headD false)

/-- The five prototype methods of the NAN binding class. -/
inductive BoundMethod
  | getVolume
  | setVolume
  | isMuted
  | setMuted
  | execTranslatorMacro
deriving DecidableEq, Repr

/-- `VolumeControlWrapper::Init`: the `Nan::SetPrototypeMethod`
registrations, in source order (JS name, method). -/
def VolumeControlWrapper.Init : List (String × BoundMethod) :=
  [("getVolume", .getVolume),
   ("setVolume", .setVolume),
   ("isMuted", .isMuted),
   ("setMuted", .setMuted),
   ("execTranslatorMacro", .execTranslatorMacro)]

/-! ## Helper lemmas -/

/-- Sample endpoint stub with all OS calls succeeding. -/
def ep0 : Endpoint := ⟨1/2, false, 0, 0, 0, 0⟩

/-- Windowing stub with the Translator window present and a delivered send. -/
def winOs0 : WinOs := ⟨["Translator CopyData Target"], 1, 0⟩

/-- Windowing stub with the Translator window present, a non-delivered send
and a genuine last error. -/
def winOsFail : WinOs := ⟨["Translator CopyData Target"], 0, 5⟩

/-- Windowing stub with no matching window. -/
def winOsNone : WinOs := ⟨[], 1, 0⟩

/-- Audio OS stub whose default-endpoint lookup fails ("no default device"). -/
def audioOsNoDev : AudioOs := ⟨0, -1, 0, ep0⟩

theorem toInt32_of_lt (x : Nat) (h : x < 2 ^ 31) : toInt32 x = (x : Int) := by
  unfold toInt32
  rw [Nat.mod_eq_of_lt (by omega), if_pos h]

theorem toInt32_lt_zero (x : Nat) (h1 : 2 ^ 31 ≤ x) (h2 : x < 2 ^ 32) :
    toInt32 x < 0 := by
  unfold toInt32
  rw [Nat.mod_eq_of_lt h2]
  rw [if_neg (by omega)]
  omega

theorem failed_hresult_from_win32 (x : Nat) (hx : x < 2 ^ 32) :
    FAILED (HRESULT_FROM_WIN32 x) = true ↔ x ≠ 0 := by
  have hzero : x = 0 → FAILED (HRESULT_FROM_WIN32 x) = false := by
    intro h; subst h; decide
  constructor
  · intro hf h0
    rw [hzero h0] at hf
    exact Bool.false_ne_true hf
  · intro hne
    have hx0 : 0 < x := Nat.pos_of_ne_zero hne
    unfold FAILED
    rw [decide_eq_true_eq]
    by_cases hlt : x < 2 ^ 31
    · unfold HRESULT_FROM_WIN32
      rw [toInt32_of_lt x hlt, if_neg (by omega)]
      have hbit : ((x &&& 0xFFFF ||| 7 <<< 16) ||| 0x80000000).testBit 31 = true := by
        rw [Nat.testBit_or]
        have h80 : (0x80000000 : Nat).testBit 31 = true := by decide
        rw [h80, Bool.or_true]
      have hge : 2 ^ 31 ≤ (x &&& 0xFFFF ||| 7 <<< 16) ||| 0x80000000 :=
        Nat.testBit_implies_ge hbit
      have hlt32 : (x &&& 0xFFFF ||| 7 <<< 16) ||| 0x80000000 < 2 ^ 32 := by
        apply Nat.or_lt_two_pow
        · apply Nat.or_lt_two_pow
          · exact lt_of_le_of_lt Nat.and_le_right (by norm_num)
          · decide
        · decide
      exact toInt32_lt_zero _ hge hlt32
    · unfold HRESULT_FROM_WIN32
      have hneg := toInt32_lt_zero x (by omega) hx
      rw [if_pos (le_of_lt hneg)]
      exact hneg

/-! ## Claim theorems -/

/-- C1: `setVolume(v)` raises `InvalidArgument` iff `v < 0` or `v > 1`;
when it raises, no OS call is performed and the endpoint is unchanged;
for every in-range `v` (boundaries included) the exact value is
forwarded to the OS volume-control call. -/
theorem setVolume_validates_range (d : Endpoint) (v : ℚ) :
    ((VolumeControl.setVolume d v).1 =
        .error (.invalidArgument "Volume needs to be between 0.0 and 1.0 inclusive")
      ↔ (v < 0 ∨ v > 1))
    ∧ ((v < 0 ∨ v > 1) →
        VolumeControl.setVolume d v =
          (.error (.invalidArgument "Volume needs to be between 0.0 and 1.0 inclusive"),
           d, []))
    ∧ (0 ≤ v → v ≤ 1 →
        (VolumeControl.setVolume d v).2.2 = [.setMasterVolume v]) := by
  unfold VolumeControl.setVolume
  by_cases h : v < 0 ∨ v > 1
  · refine ⟨by simp [h], fun _ => by simp [h], fun h0 h1 => ?_⟩
    rcases h with h | h
    · exact absurd h0 (not_le.mpr h)
    · exact absurd h1 (not_le.mpr h)
  · rw [if_neg h]
    refine ⟨?_, fun hc => absurd hc h, fun _ _ => ?_⟩
    · unfold checkErrors
      constructor
      · intro he
        by_cases hf : FAILED d.hrSetVolume <;> simp [hf] at he
      · intro hc
        exact absurd hc h
    · unfold checkErrors
      by_cases hf : FAILED d.hrSetVolume <;> simp [hf]

/-- C1 witness: `setVolume(2)` on a healthy endpoint raises the
invalid-argument error with no OS call, and `setVolume(1)` forwards. -/
theorem setVolume_validates_range_witness :
    VolumeControl.setVolume ep0 2 =
      (.error (.invalidArgument "Volume needs to be between 0.0 and 1.0 inclusive"),
       ep0, [])
    ∧ (VolumeControl.setVolume ep0 1).2.2 = [.setMasterVolume 1] :=
  ⟨(setVolume_validates_range ep0 2).2.1 (Or.inr (by norm_num)),
   (setVolume_validates_range ep0 1).2.2 (by norm_num) (by norm_num)⟩

/-- C3: on an endpoint whose OS calls succeed, `setVolume(v)` for any
in-range `v` succeeds and a subsequent `getVolume()` returns exactly `v`. -/
theorem setVolume_getVolume_roundtrip (d : Endpoint) (v : ℚ)
    (h0 : 0 ≤ v) (h1 : v ≤ 1)
    (hset : FAILED d.hrSetVolume = false) (hget : FAILED d.hrGetVolume = false) :
    (VolumeControl.setVolume d v).1 = .ok ()
    ∧ (VolumeControl.getVolume (VolumeControl.setVolume d v).2.1).1 = .ok v := by
  have hnot : ¬ (v < 0 ∨ v > 1) := by
    rw [not_or, not_lt, not_lt]
    exact ⟨h0, h1⟩
  unfold VolumeControl.setVolume VolumeControl.getVolume checkErrors
  rw [if_neg hnot]
  simp [hset, hget]

/-- C3 witness at `v = 37/100`. -/
theorem setVolume_getVolume_roundtrip_witness :
    (VolumeControl.setVolume ep0 (37/100)).1 = .ok ()
    ∧ (VolumeControl.getVolume (VolumeControl.setVolume ep0 (37/100)).2.1).1 =
        .ok (37/100) :=
  setVolume_getVolume_roundtrip ep0 (37/100) (by norm_num) (by norm_num) rfl rfl

/-- C4: on an endpoint whose OS calls succeed, `setMuted(b)` succeeds
and a subsequent `isMuted()` returns exactly `b`, for either boolean. -/
theorem setMuted_isMuted_roundtrip (d : Endpoint) (b : Bool)
    (hset : FAILED d.hrSetMute = false) (hget : FAILED d.hrGetMute = false) :
    (VolumeControl.setMuted d b).1 = .ok ()
    ∧ (VolumeControl.isMuted (VolumeControl.setMuted d b).2.1).1 = .ok b := by
  unfold VolumeControl.setMuted VolumeControl.isMuted checkErrors
  simp [hset, hget]

/-- C4 witness at both booleans. -/
theorem setMuted_isMuted_roundtrip_witness :
    ((VolumeControl.isMuted (VolumeControl.setMuted ep0 true).2.1).1 = .ok true)
    ∧ ((VolumeControl.isMuted (VolumeControl.setMuted ep0 false).2.1).1 = .ok false) :=
  ⟨(setMuted_isMuted_roundtrip ep0 true rfl rfl).2,
   (setMuted_isMuted_roundtrip ep0 false rfl rfl).2⟩

/-- C5: `setMuted(b)` never changes the stored volume; concretely,
after `setVolume(v)` and `setMuted(b)` (OS calls succeeding),
`getVolume()` still returns `v`. -/
theorem setMuted_preserves_volume (d : Endpoint) (b : Bool) (v : ℚ)
    (h0 : 0 ≤ v) (h1 : v ≤ 1)
    (hsv : FAILED d.hrSetVolume = false) (hsm : FAILED d.hrSetMute = false)
    (hgv : FAILED d.hrGetVolume = false) :
    (VolumeControl.setMuted d b).2.1.volume = d.volume
    ∧ (VolumeControl.getVolume
        (VolumeControl.setMuted (VolumeControl.setVolume d v).2.1 b).2.1).1 =
      .ok v := by
  have hnot : ¬ (v < 0 ∨ v > 1) := by
    rw [not_or, not_lt, not_lt]
    exact ⟨h0, h1⟩
  unfold VolumeControl.setMuted VolumeControl.setVolume VolumeControl.getVolume checkErrors
  rw [if_neg hnot]
  constructor
  · by_cases hf : FAILED d.hrSetMute <;> simp [hf]
  · simp [hsv, hsm, hgv]

/-- C5 witness: set volume to 3/4, mute, volume still 3/4. -/
theorem setMuted_preserves_volume_witness :
    (VolumeControl.getVolume
        (VolumeControl.setMuted (VolumeControl.setVolume ep0 (3/4)).2.1 true).2.1).1 =
      .ok (3/4) :=
  (setMuted_preserves_volume ep0 true (3/4) (by norm_num) (by norm_num) rfl rfl rfl).2

/-- C10: each argument-taking binding method (`SetVolume`, `SetMuted`,
`ExecTranslatorMacro`) rejects any argument count other than 1 with its
arity error, before any validation, window lookup or OS call: the call
log is empty and the endpoint state unchanged, whatever the arguments. -/
theorem binding_arity_checked_first (d : Endpoint) (os : WinOs)
    (qs : List ℚ) (bs : List Bool) (ss : List String)
    (hq : qs.length ≠ 1) (hb : bs.length ≠ 1) (hs : ss.length ≠ 1) :
    VolumeControlWrapper.SetVolume d qs =
      (.error (.arityError "Exactly one number parameter is required."), d, [])
    ∧ VolumeControlWrapper.SetMuted d bs =
      (.error (.arityError "Exactly one boolean parameter is required."), d, [])
    ∧ VolumeControlWrapper.ExecTranslatorMacro os ss =
      (.error (.arityError "Exactly one string parameter is required."), []) := by
  unfold VolumeControlWrapper.SetVolume VolumeControlWrapper.SetMuted
    VolumeControlWrapper.ExecTranslatorMacro
  rw [if_pos hq, if_pos hb, if_pos hs]
  exact ⟨rfl, rfl, rfl⟩

/-- C10 witness: two out-of-range numbers still yield the arity error
(arity precedes range validation), and empty argument lists fail too. -/
theorem binding_arity_checked_first_witness :
    VolumeControlWrapper.SetVolume ep0 [2, 3] =
      (.error (.arityError "Exactly one number parameter is required."), ep0, [])
    ∧ VolumeControlWrapper.SetMuted ep0 [] =
      (.error (.arityError "Exactly one boolean parameter is required."), ep0, [])
    ∧ VolumeControlWrapper.ExecTranslatorMacro winOs0 [] =
      (.error (.arityError "Exactly one string parameter is required."), []) :=
  binding_arity_checked_first ep0 winOs0 [2, 3] [] []
    (by decide) (by decide) (by decide)

/-- C6: for every macro name, `ExecTranslatorMacro` first looks up the
window whose title exactly equals the hardcoded target; it raises the
target-not-running error iff no such window exists, in which case its
only OS call is that single lookup (no send, no retry). -/
theorem execMacro_target_lookup (os : WinOs) (name : String) :
    ((VolumeControlWrapper.ExecTranslatorMacro os [name]).1 =
        .error (.targetNotRunning
          "Could not find running Translator instance to send message to")
      ↔ findWindowA os "Translator CopyData Target" = false)
    ∧ (findWindowA os "Translator CopyData Target" = false →
        VolumeControlWrapper.ExecTranslatorMacro os [name] =
          (.error (.targetNotRunning
            "Could not find running Translator instance to send message to"),
           [.findWindow "Translator CopyData Target"]))
    ∧ ((VolumeControlWrapper.ExecTranslatorMacro os [name]).2.head? =
        some (.findWindow "Translator CopyData Target")) := by
  by_cases hw : findWindowA os "Translator CopyData Target"
  · by_cases hc : os.sendRet = 0 ∧ FAILED (HRESULT_FROM_WIN32 os.lastError) = true
    · simp [VolumeControlWrapper.ExecTranslatorMacro, hw, hc]
    · simp [VolumeControlWrapper.ExecTranslatorMacro, hw, hc]
  · simp [VolumeControlWrapper.ExecTranslatorMacro, hw]

/-- C6 witness: with no matching window, only the lookup happens and
the target-not-running error is raised. -/
theorem execMacro_target_lookup_witness :
    VolumeControlWrapper.ExecTranslatorMacro winOsNone ["Foo"] =
      (.error (.targetNotRunning
        "Could not find running Translator instance to send message to"),
       [.findWindow "Translator CopyData Target"]) :=
  (execMacro_target_lookup winOsNone "Foo").2.1 rfl

/-- C7: when the target window exists, `ExecTranslatorMacro` performs
exactly one lookup followed by one blocking send of `WM_COPYDATA` with
`dwData = 24`, payload exactly `"Macro: " ++ name` (any name, empty
included), flags `SMTO_ABORTIFHUNG` and timeout 5000. -/
theorem execMacro_payload_and_send (os : WinOs) (name : String)
    (h : findWindowA os "Translator CopyData Target" = true) :
    (VolumeControlWrapper.ExecTranslatorMacro os [name]).2 =
      [.findWindow "Translator CopyData Target",
       .sendMessageTimeout WM_COPYDATA 24 ("Macro: " ++ name)
         ("Macro: " ++ name).utf8ByteSize SMTO_ABORTIFHUNG 5000] := by
  by_cases hc : os.sendRet = 0 ∧ FAILED (HRESULT_FROM_WIN32 os.lastError) = true
  · simp [VolumeControlWrapper.ExecTranslatorMacro, h, hc]
  · simp [VolumeControlWrapper.ExecTranslatorMacro, h, hc]

/-- C7 witness: delivering macro `"Foo"` sends payload `"Macro: Foo"`. -/
theorem execMacro_payload_and_send_witness :
    (VolumeControlWrapper.ExecTranslatorMacro winOs0 ["Foo"]).2 =
      [.findWindow "Translator CopyData Target",
       .sendMessageTimeout WM_COPYDATA 24 ("Macro: " ++ "Foo")
         ("Macro: " ++ "Foo").utf8ByteSize SMTO_ABORTIFHUNG 5000] :=
  execMacro_payload_and_send winOs0 "Foo" rfl

/-- C2: with the target window present, `ExecTranslatorMacro` raises
the delivery-failed error carrying `HRESULT_FROM_WIN32` of the last OS
error iff the send returned 0 and the last error is a genuine failure
code; if the send returned 0 but the last error is the success
sentinel 0, the call completes as success. -/
theorem execMacro_delivery_failure (os : WinOs) (name : String)
    (hwin : findWindowA os "Translator CopyData Target" = true)
    (hdw : os.lastError < 2 ^ 32) :
    ((VolumeControlWrapper.ExecTranslatorMacro os [name]).1 =
        .error (.deliveryFailed "Failed to execute Translator Macro"
          (HRESULT_FROM_WIN32 os.lastError))
      ↔ (os.sendRet = 0 ∧ os.lastError ≠ 0))
    ∧ (os.sendRet = 0 → os.lastError = 0 →
        (VolumeControlWrapper.ExecTranslatorMacro os [name]).1 = .ok ()) := by
  have hiff := failed_hresult_from_win32 os.lastError hdw
  by_cases h0 : os.sendRet = 0
  · by_cases hl : os.lastError = 0
    · have hf0 : FAILED (HRESULT_FROM_WIN32 0) = false := by decide
      simp [VolumeControlWrapper.ExecTranslatorMacro, hwin, h0, hl, hf0]
    · have hf : FAILED (HRESULT_FROM_WIN32 os.lastError) = true := hiff.mpr hl
      simp [VolumeControlWrapper.ExecTranslatorMacro, hwin, h0, hl, hf]
  · simp [VolumeControlWrapper.ExecTranslatorMacro, hwin, h0]

/-- C2 witness: send returning 0 with last error 5 raises the
delivery-failed error carrying the mapped HRESULT. -/
theorem execMacro_delivery_failure_witness :
    (VolumeControlWrapper.ExecTranslatorMacro winOsFail ["Foo"]).1 =
      .error (.deliveryFailed "Failed to execute Translator Macro"
        (HRESULT_FROM_WIN32 5)) :=
  ((execMacro_delivery_failure winOsFail "Foo" rfl (by decide)).1).mpr
    ⟨rfl, by decide⟩

/-- C9: construction fails with a construction-failure error iff any of
the three OS steps fails; a usable endpoint is produced only when all
three succeed; and a failing step aborts construction before any later
step runs (visible in the call log). -/
theorem construct_fails_iff (os : AudioOs) :
    ((∃ e, (VolumeControl.construct os).1 = .error e
        ∧ isConstructionFailure e = true)
      ↔ (FAILED os.hrCoCreate = true ∨ FAILED os.hrGetDefaultEndpoint = true
          ∨ FAILED os.hrActivate = true))
    ∧ (∀ d, (VolumeControl.construct os).1 = .ok d →
        FAILED os.hrCoCreate = false ∧ FAILED os.hrGetDefaultEndpoint = false
          ∧ FAILED os.hrActivate = false)
    ∧ (FAILED os.hrCoCreate = true →
        (VolumeControl.construct os).2 = [.coCreateInstance])
    ∧ (FAILED os.hrCoCreate = false → FAILED os.hrGetDefaultEndpoint = true →
        (VolumeControl.construct os).2 =
          [.coCreateInstance, .getDefaultAudioEndpoint])
    ∧ (FAILED os.hrCoCreate = false → FAILED os.hrGetDefaultEndpoint = false →
        FAILED os.hrActivate = true →
        (VolumeControl.construct os).2 =
          [.coCreateInstance, .getDefaultAudioEndpoint, .activate]) := by
  cases hco : FAILED os.hrCoCreate
    <;> cases hgd : FAILED os.hrGetDefaultEndpoint
    <;> cases hac : FAILED os.hrActivate
    <;> simp [VolumeControl.construct, checkErrors, hco, hgd, hac,
          isConstructionFailure]

/-- C9 witness: a stub reporting "no default device" aborts after the
second step, producing a construction failure and no endpoint. -/
theorem construct_fails_iff_witness :
    (∃ e, (VolumeControl.construct audioOsNoDev).1 = .error e
      ∧ isConstructionFailure e = true)
    ∧ (VolumeControl.construct audioOsNoDev).2 =
        [.coCreateInstance, .getDefaultAudioEndpoint] :=
  ⟨(construct_fails_iff audioOsNoDev).1.mpr (Or.inr (Or.inl (by decide))),
   (construct_fails_iff audioOsNoDev).2.2.2.1 (by decide) (by decide)⟩

/-- C8: the binding class registers exactly five prototype methods —
`getVolume`, `setVolume`, `isMuted`, `setMuted` and the macro
executor (JS name `execTranslatorMacro`, the spec's `execMacro`) — and
every OS failure surfaces as an error whose rendered message is the
human-readable text with the OS error code appended in hexadecimal. -/
theorem binding_surface :
    VolumeControlWrapper.Init.map Prod.fst =
      ["getVolume", "setVolume", "isMuted", "setMuted", "execTranslatorMacro"]
    ∧ VolumeControlWrapper.Init.length = 5
    ∧ (∀ msg : String, ∀ hr : Int, FAILED hr = true →
        checkErrors hr msg = .error (.osError msg hr)
        ∧ (VcError.osError msg hr).render =
            msg ++ " (0x" ++ natToHex (toUInt32Bits hr) ++ ")") :=
  ⟨rfl, rfl, fun msg hr h => ⟨by simp [checkErrors, h], rfl⟩⟩

/-- C8 witness: a failing HRESULT in `checkErrors` yields the tagged
OS error for that message. -/
theorem binding_surface_witness :
    checkErrors (-1) "getting volume" = .error (.osError "getting volume" (-1)) :=
  ((binding_surface.2.2 "getting volume" (-1)) (by decide)).1
